import Mathlib

/-!
# Smart Energy Monitoring System: the sketch `src/main.cpp`

A shallow embedding of the ESP8266 sketch (PZEM-004T sensor, SSD1306 display, HTTP upload).

* `float` is the IEEE-754 single format, held as its three bit fields (`F32`).
* `unsigned long` is 32 bits wide on the ESP8266: naturals with explicit `% 2^32`.
* The sketch's globals are the record `Globals`. A function of the sketch that assigns
  globals returns the new `Globals`; every function returns the trace (`List Event`) of
  the calls it makes, in program order.
* What the peripherals answer (sensor getters, `millis()`, `WiFi.status()`, `http.POST`)
  is an input of each function.
* `Serial` output is write-only diagnostics and is not part of the trace.
-/

namespace EnergyMonitor

/-! ## `float` -/

/-- An IEEE-754 single-precision value: sign bit, 8 exponent bits, 23 mantissa bits. -/
structure F32 where
  sign : Bool
  exponent : Fin 256
  mantissa : Fin 8388608
deriving DecidableEq

/-- The literal `0.0`. -/
def F32.zero : F32 := ⟨false, 0, 0⟩

/-- C `isnan`: all exponent bits set and a non-zero mantissa. -/
def isnan (x : F32) : Bool := x.exponent.val == 255 && x.mantissa.val != 0

/-- C `isinf`: all exponent bits set and a zero mantissa. -/
def isinf (x : F32) : Bool := x.exponent.val == 255 && x.mantissa.val == 0

/-- Neither NaN nor an infinity. -/
def F32.isFinite (x : F32) : Bool := x.exponent.val != 255

/-- The magnitude of a finite value, scaled by `2^149` so that it is a natural number:
subnormals are `mantissa · 2^-149`, normals `(2^23 + mantissa) · 2^(exponent - 150)`. -/
def F32.scaledAbs (x : F32) : Nat :=
  if x.exponent.val = 0 then x.mantissa.val
  else (8388608 + x.mantissa.val) * 2 ^ (x.exponent.val - 1)

/-- The value `x < 0.0` of a finite float (false for `-0.0`). -/
def F32.isNegative (x : F32) : Bool := x.sign && x.scaledAbs != 0

/-! ## Globals (lines 40-53) -/

/-- The six data variables `voltage, current, power, energy, frequency, pf`. -/
structure Reading where
  voltage : F32
  current : F32
  power : F32
  energy : F32
  frequency : F32
  pf : F32
deriving DecidableEq

/-- The timing variables and the data variables of the sketch. -/
structure Globals where
  lastDisplayUpdate : Nat
  lastDataSend : Nat
  displayPage : Int
  reading : Reading
deriving DecidableEq

/-- The constant `displayInterval = 2000` (line 43). -/
def displayInterval : Nat := 2000

/-- The constant `sendInterval = 10000` (line 44). -/
def sendInterval : Nat := 10000

/-- The initial values of the globals (lines 41-53). -/
def boot : Globals :=
  { lastDisplayUpdate := 0, lastDataSend := 0, displayPage := 0,
    reading := ⟨F32.zero, F32.zero, F32.zero, F32.zero, F32.zero, F32.zero⟩ }

/-- No field of the reading is NaN. -/
def Reading.noNaN (r : Reading) : Bool :=
  !isnan r.voltage && !isnan r.current && !isnan r.power &&
  !isnan r.energy && !isnan r.frequency && !isnan r.pf

/-- Every field of the reading is finite. -/
def Reading.allFinite (r : Reading) : Bool :=
  r.voltage.isFinite && r.current.isFinite && r.power.isFinite &&
  r.energy.isFinite && r.frequency.isFinite && r.pf.isFinite

/-! ## `readSensorData` (lines 166-181) -/

/-- The results of the six getters `pzem.voltage()`, ..., `pzem.pf()`, in call order. -/
structure Sample where
  voltage : F32
  current : F32
  power : F32
  energy : F32
  frequency : F32
  pf : F32

/-- Lines 167-180: the six assignments, then the six `if (isnan(v)) v = 0.0;`. -/
def readSensorData (s : Sample) (g : Globals) : Globals :=
  let voltage := s.voltage
  let current := s.current
  let power := s.power
  let energy := s.energy
  let frequency := s.frequency
  let pf := s.pf
  let voltage := if isnan voltage then F32.zero else voltage
  let current := if isnan current then F32.zero else current
  let power := if isnan power then F32.zero else power
  let energy := if isnan energy then F32.zero else energy
  let frequency := if isnan frequency then F32.zero else frequency
  let pf := if isnan pf then F32.zero else pf
  { g with reading := ⟨voltage, current, power, energy, frequency, pf⟩ }

/-! ## Peripheral calls and traces -/

/-- The constant `ssid` (line 23). -/
def ssid : String := "vaibhav"

/-- The constant `serverUrl` (line 27). -/
def serverUrl : String := "http://192.168.0.195:8000/api/energy-data/"

/-- Calls on the `display` object. `printFloat x d` is `display.print(x, d)`;
`printlnLocalIP` is `display.println(WiFi.localIP())`. -/
inductive Oled where
  | clearDisplay
  | setTextSize (s : Nat)
  | setTextColorWhite
  | setCursor (x y : Nat)
  | print (s : String)
  | println (s : String)
  | printFloat (x : F32) (digits : Nat)
  | printlnLocalIP
  | display
deriving DecidableEq

/-- Calls on the `HTTPClient` object. `addHeader` is recorded by the header's name; the
values are the literal `application/json` and the constant `apiKey` (lines 270-271). -/
inductive Http where
  | begin (url : String)
  | addHeader (name : String)
  | POST (payload : String)
  | getString
  | end_
deriving DecidableEq

/-- One entry of a trace: the entry into a function of the sketch (for the two consumers of
the reading together with the globals at that moment) or a call to a peripheral. -/
inductive Event where
  | readSensorData
  | updateDisplay (g : Globals)
  | sendDataToServer (g : Globals)
  | connectWiFi
  | displayBootScreen
  | displayError (message : String)
  | oledBegin (ok : Bool)
  | oled (op : Oled)
  | http (op : Http)
  | wifiBegin
  | wifiStatus (connected : Bool)
  | millis (now : Nat)
  | delay (ms : Nat)
deriving DecidableEq

/-! ## `displayError` (lines 320-330) and `displayBootScreen` (lines 305-317) -/

/-- Lines 320-330. -/
def displayError (message : String) : List Event :=
  [ .displayError message,
    .oled .clearDisplay,
    .oled (.setTextSize 2),
    .oled .setTextColorWhite,
    .oled (.setCursor 0 20),
    .oled (.println "ERROR:"),
    .oled (.setTextSize 1),
    .oled (.setCursor 0 45),
    .oled (.println message),
    .oled .display ]

/-- Lines 305-317. -/
def displayBootScreen : List Event :=
  [ .displayBootScreen,
    .oled .clearDisplay,
    .oled (.setTextSize 2),
    .oled .setTextColorWhite,
    .oled (.setCursor 10 10),
    .oled (.println "ENERGY"),
    .oled (.setCursor 5 35),
    .oled (.println "MONITOR"),
    .oled (.setTextSize 1),
    .oled (.setCursor 25 55),
    .oled (.println "Booting..."),
    .oled .display ]

/-! ## `connectWiFi` (lines 123-163) -/

/-- The loop of lines 138-144, `while (WiFi.status() != WL_CONNECTED && attempts < 30)`,
by recursion on `remaining = 30 - attempts`. `wifi k` tells whether the `k`-th call of
`WiFi.status()` made by `connectWiFi` answers `WL_CONNECTED`; inside the loop the call
index equals `attempts`. Returns the trace and the value of `attempts` on exit. -/
def connectWiFi_while (wifi : Nat → Bool) : Nat → Nat → List Event × Nat
  | 0, attempts => ([.wifiStatus (wifi attempts)], attempts)
  | remaining + 1, attempts =>
    if wifi attempts then ([.wifiStatus true], attempts)
    else
      let r := connectWiFi_while wifi remaining (attempts + 1)
      (.wifiStatus false :: .delay 500 :: .oled (.print ".") :: .oled .display :: r.1, r.2)

/-- Lines 146-157: the branch taken when the status after the loop is `WL_CONNECTED`. -/
def connectWiFi_connected : List Event :=
  [ .oled .clearDisplay,
    .oled (.setCursor 0 0),
    .oled (.println "WiFi Connected!"),
    .oled (.print "IP: "),
    .oled .printlnLocalIP,
    .oled .display,
    .delay 2000 ]

/-- Lines 158-162: the branch taken otherwise. -/
def connectWiFi_failed : List Event :=
  displayError "WiFi Failed" ++ [.delay 3000]

/-- Lines 123-163. The status query of line 146 is the call after those of the loop. -/
def connectWiFi (wifi : Nat → Bool) : List Event :=
  let r := connectWiFi_while wifi 30 0
  let connected := wifi (r.2 + 1)
  [ .connectWiFi,
    .oled .clearDisplay,
    .oled (.setTextSize 1),
    .oled .setTextColorWhite,
    .oled (.setCursor 0 0),
    .oled (.println "Connecting WiFi..."),
    .oled (.println ssid),
    .oled .display,
    .wifiBegin ] ++ r.1 ++ [.wifiStatus connected] ++
  (if connected then connectWiFi_connected else connectWiFi_failed)

/-! ## `updateDisplay` (lines 184-252) -/

/-- The `switch(displayPage)` of lines 190-249. -/
def updateDisplay_switch (g : Globals) : List Oled :=
  match g.displayPage with
  | 0 => [.setTextSize 2, .println "VOLTAGE", .setTextSize 3,
          .printFloat g.reading.voltage 1, .setTextSize 2, .println " V"]
  | 1 => [.setTextSize 2, .println "CURRENT", .setTextSize 3,
          .printFloat g.reading.current 2, .setTextSize 2, .println " A"]
  | 2 => [.setTextSize 2, .println "POWER", .setTextSize 3,
          .printFloat g.reading.power 1, .setTextSize 2, .println " W"]
  | 3 => [.setTextSize 2, .println "ENERGY", .setTextSize 3,
          .printFloat g.reading.energy 2, .setTextSize 1, .println " kWh"]
  | 4 => [.setTextSize 2, .println "FREQUENCY", .setTextSize 3,
          .printFloat g.reading.frequency 1, .setTextSize 2, .println " Hz"]
  | 5 => [.setTextSize 2, .println "POWER", .println "FACTOR", .setTextSize 3,
          .printFloat g.reading.pf 2]
  | _ => []

/-- The calls on `display` made by lines 185-251. -/
def updateDisplay_ops (g : Globals) : List Oled :=
  [.clearDisplay, .setTextSize 1, .setTextColorWhite, .setCursor 0 0] ++
    updateDisplay_switch g ++ [.display]

/-- Lines 184-252. -/
def updateDisplay (g : Globals) : List Event :=
  .updateDisplay g :: (updateDisplay_ops g).map .oled

/-! ## `sendDataToServer` (lines 255-302) -/

/-- The `count` lowest decimal digits of `n`, most significant first. -/
def fracDigits (n : Nat) : Nat → List Char
  | 0 => []
  | count + 1 => Nat.digitChar (n / 10 ^ count % 10) :: fracDigits n count

/-- Modelled from the spec: the Arduino core's `String(float value, unsigned char
decimalPlaces)` constructor is library code outside the sources. The spec (§4.4, §6, §8)
fixes what it prints: the value in decimal notation with exactly `decimalPlaces` digits
after the point, whatever the magnitude (`0` with 2 places is `0.00`). The value is
rounded to the nearest multiple of `10^-decimalPlaces` (ties away from zero), computed
exactly on the binary value; NaN and the infinities print as `nan` and `inf`. -/
def String_float (value : F32) (decimalPlaces : Nat) : String :=
  if isnan value then "nan"
  else if isinf value then "inf"
  else
    let scaled := (2 * value.scaledAbs * 10 ^ decimalPlaces + 2 ^ 149) / 2 ^ 150
    let sign := if value.isNegative then ['-'] else []
    let whole := Nat.toDigits 10 (scaled / 10 ^ decimalPlaces)
    let frac := if decimalPlaces = 0 then [] else '.' :: fracDigits scaled decimalPlaces
    String.mk (sign ++ whole ++ frac)

/-- Lines 274-281: the construction of `jsonPayload`. -/
def jsonPayload (r : Reading) : String :=
  let jsonPayload := "\x7b"
  let jsonPayload := jsonPayload ++ ("\"voltage\":" ++ String_float r.voltage 2 ++ ",")
  let jsonPayload := jsonPayload ++ ("\"current\":" ++ String_float r.current 3 ++ ",")
  let jsonPayload := jsonPayload ++ ("\"power\":" ++ String_float r.power 2 ++ ",")
  let jsonPayload := jsonPayload ++ ("\"energy\":" ++ String_float r.energy 3 ++ ",")
  let jsonPayload := jsonPayload ++ ("\"frequency\":" ++ String_float r.frequency 2 ++ ",")
  let jsonPayload := jsonPayload ++ ("\"power_factor\":" ++ String_float r.pf 3)
  jsonPayload ++ "\x7d"

/-- Lines 255-302. `wifi k` is the answer of the `k`-th `WiFi.status()` call made during
this call (those of `connectWiFi` included), `httpResponseCode` the result of `http.POST`. -/
def sendDataToServer (wifi : Nat → Bool) (httpResponseCode : Int) (g : Globals) :
    List Event :=
  if !wifi 0 then
    [.sendDataToServer g, .wifiStatus false] ++ connectWiFi (fun k => wifi (k + 1))
  else
    [ .sendDataToServer g,
      .wifiStatus true,
      .http (.begin serverUrl),
      .http (.addHeader "Content-Type"),
      .http (.addHeader "X-API-Key"),
      .http (.POST (jsonPayload g.reading)) ] ++
    (if httpResponseCode > 0 then [.http .getString] else []) ++
    [.http .end_]

/-! ## `loop` (lines 102-120) -/

/-- Subtraction of `unsigned long` (32 bits): `a - b` modulo `2^32`. -/
def ulSub (a b : Nat) : Nat := (a % 4294967296 + (4294967296 - b % 4294967296)) % 4294967296

/-- What the peripherals answer during one iteration of `loop`: the six sensor getters,
the four `millis()` calls of lines 107, 109, 114 and 116 (the second and the fourth are
made only when the action fires), the `WiFi.status()` calls and `http.POST`. -/
structure LoopInput where
  sample : Sample
  millis107 : Nat
  millis109 : Nat
  millis114 : Nat
  millis116 : Nat
  wifi : Nat → Bool
  httpResponseCode : Int

/-- Line 107: `millis() - lastDisplayUpdate >= displayInterval`. -/
def displayDue (now : Nat) (g : Globals) : Bool :=
  decide (ulSub now g.lastDisplayUpdate ≥ displayInterval)

/-- Line 114: `millis() - lastDataSend >= sendInterval`. -/
def sendDue (now : Nat) (g : Globals) : Bool :=
  decide (ulSub now g.lastDataSend ≥ sendInterval)

/-- Lines 107-111. -/
def loop_display (inp : LoopInput) (g : Globals) : Globals × List Event :=
  if displayDue inp.millis107 g then
    ({ g with lastDisplayUpdate := inp.millis109 % 4294967296,
              displayPage := Int.tmod (g.displayPage + 1) 6 },
     [.millis (inp.millis107 % 4294967296)] ++ updateDisplay g ++
       [.millis (inp.millis109 % 4294967296)])
  else (g, [.millis (inp.millis107 % 4294967296)])

/-- Lines 114-117. -/
def loop_send (inp : LoopInput) (g : Globals) : Globals × List Event :=
  if sendDue inp.millis114 g then
    ({ g with lastDataSend := inp.millis116 % 4294967296 },
     [.millis (inp.millis114 % 4294967296)] ++
       sendDataToServer inp.wifi inp.httpResponseCode g ++
       [.millis (inp.millis116 % 4294967296)])
  else (g, [.millis (inp.millis114 % 4294967296)])

/-- Lines 102-120: one iteration. -/
def loop (inp : LoopInput) (g : Globals) : Globals × List Event :=
  let g1 := readSensorData inp.sample g
  let d := loop_display inp g1
  let s := loop_send inp d.1
  (s.1, [.readSensorData] ++ d.2 ++ s.2 ++ [.delay 100])

/-! ## `setup` (lines 64-99) and whole runs -/

/-- What the peripherals answer during `setup`: `display.begin`, the `WiFi.status()`
calls of `connectWiFi`, and `pzem.voltage()`. -/
structure SetupInput where
  displayBegin : Bool
  wifi : Nat → Bool
  voltage : F32

/-- Lines 64-99. `none` is the `for(;;);` of line 75: `setup` never returns. -/
def setup (inp : SetupInput) (g : Globals) : Option (Globals × List Event) :=
  if !inp.displayBegin then none
  else
    let g1 := { g with reading := { g.reading with voltage := inp.voltage } }
    some (g1,
      [.delay 100, .oledBegin true] ++ displayBootScreen ++ [.delay 2000] ++
        connectWiFi inp.wifi ++ [.delay 1000] ++
        (if isnan g1.reading.voltage then displayError "PZEM Error" ++ [.delay 3000] else []))

/-- Consecutive iterations of `loop`, one per input. -/
def run : List LoopInput → Globals → Globals × List Event
  | [], g => (g, [])
  | inp :: rest, g =>
    let a := loop inp g
    let b := run rest a.1
    (b.1, a.2 ++ b.2)

/-- The program: `setup` from the initial globals, then iterations of `loop`. -/
def program (si : SetupInput) (inputs : List LoopInput) : Option (Globals × List Event) :=
  match setup si boot with
  | none => none
  | some (g, t) =>
    let b := run inputs g
    some (b.1, t ++ b.2)

/-! ## Observations on traces -/

/-- Entry into `updateDisplay`: a display render. -/
def Event.isRender : Event → Bool
  | .updateDisplay _ => true
  | _ => false

/-- Entry into `sendDataToServer`: an upload attempt. -/
def Event.isUpload : Event → Bool
  | .sendDataToServer _ => true
  | _ => false

/-- A call of `http.POST`. -/
def Event.isPost : Event → Bool
  | .http (.POST _) => true
  | _ => false

/-- Entry into `connectWiFi`: a reconnect attempt. -/
def Event.isConnect : Event → Bool
  | .connectWiFi => true
  | _ => false

/-- Entry into `displayError`. -/
def Event.isError : Event → Bool
  | .displayError _ => true
  | _ => false

/-- The polling sleep `delay(500)`. -/
def Event.isPollSleep : Event → Bool
  | .delay ms => ms == 500
  | _ => false

/-- Number of display renders in a trace. -/
def renders (t : List Event) : Nat := t.countP Event.isRender

/-- Number of upload attempts in a trace. -/
def uploads (t : List Event) : Nat := t.countP Event.isUpload

/-- Number of HTTP POSTs in a trace. -/
def posts (t : List Event) : Nat := t.countP Event.isPost

/-- Number of reconnect attempts in a trace. -/
def connects (t : List Event) : Nat := t.countP Event.isConnect

/-- Number of `displayError` calls in a trace. -/
def errorCalls (t : List Event) : Nat := t.countP Event.isError

/-- Number of polling sleeps in a trace. -/
def pollSleeps (t : List Event) : Nat := t.countP Event.isPollSleep

/-- Whether the status query of line 146 answers `WL_CONNECTED`. -/
def connectWiFi_finalStatus (wifi : Nat → Bool) : Bool :=
  wifi ((connectWiFi_while wifi 30 0).2 + 1)

/-- What the event hands of the reading to one of its consumers contains no NaN: the
globals seen by `updateDisplay` and `sendDataToServer`, the reading a POSTed payload is
built from, and a value drawn with `display.print(x, d)`. -/
def Event.readsNoNaN : Event → Prop
  | .updateDisplay g => g.reading.noNaN = true
  | .sendDataToServer g => g.reading.noNaN = true
  | .http (.POST payload) => ∃ r : Reading, r.noNaN = true ∧ payload = jsonPayload r
  | .oled (.printFloat x _) => isnan x = false
  | _ => True

/-- The calls that put text on the frame. -/
def Oled.isDraw : Oled → Bool
  | .print _ => true
  | .println _ => true
  | .printFloat _ _ => true
  | .printlnLocalIP => true
  | _ => false

/-! ## The spec's page table (§4.3) and number format (§4.4) -/

/-- One row of the table of §4.3. -/
structure PageLayout where
  labels : List String
  value : Reading → F32
  decimals : Nat
  unit : String

/-- The table of §4.3, row by row. -/
def pageTable : Fin 6 → PageLayout
  | 0 => ⟨["VOLTAGE"], Reading.voltage, 1, "V"⟩
  | 1 => ⟨["CURRENT"], Reading.current, 2, "A"⟩
  | 2 => ⟨["POWER"], Reading.power, 1, "W"⟩
  | 3 => ⟨["ENERGY"], Reading.energy, 2, "kWh"⟩
  | 4 => ⟨["FREQUENCY"], Reading.frequency, 1, "Hz"⟩
  | 5 => ⟨["POWER", "FACTOR"], Reading.pf, 2, ""⟩

/-- What a row of the table puts on the frame: the label lines, the value with its
decimals, and the unit (set off by a blank) when there is one. -/
def PageLayout.drawn (l : PageLayout) (r : Reading) : List Oled :=
  l.labels.map Oled.println ++ [Oled.printFloat (l.value r) l.decimals] ++
    (if l.unit = "" then [] else [Oled.println (" " ++ l.unit)])

/-- Decimal notation with exactly `n` digits after the point: an optional minus sign,
one or more digits, a point, `n` digits. -/
def isFixedDecimal (n : Nat) (s : String) : Bool :=
  let body := match s.data with
    | '-' :: rest => rest
    | cs => cs
  match body.dropWhile Char.isDigit with
  | '.' :: frac =>
    !(body.takeWhile Char.isDigit).isEmpty && frac.length == n && frac.all Char.isDigit
  | _ => false

/-! ## Concrete inputs -/

/-- The `float` nearest to 230.5 (`0x43668000`). -/
def f230_5 : F32 := ⟨false, 134, 6717440⟩

/-- The `float` nearest to 1.2 (`0x3F99999A`). -/
def f1_2 : F32 := ⟨false, 127, 1677722⟩

/-- The `float` nearest to 276.6 (`0x438A4CCD`). -/
def f276_6 : F32 := ⟨false, 135, 675021⟩

/-- The `float` 50.0 (`0x42480000`). -/
def f50 : F32 := ⟨false, 132, 4718592⟩

/-- The `float` nearest to 0.95 (`0x3F733333`). -/
def f0_95 : F32 := ⟨false, 126, 7549747⟩

/-- A quiet NaN (`0x7FC00000`), the `NAN` of the C library. -/
def fNaN : F32 := ⟨false, 255, 4194304⟩

/-- The reading of the end-to-end scenario of §8. -/
def scenarioReading : Reading := ⟨f230_5, f1_2, f276_6, F32.zero, f50, f0_95⟩

/-- A sensor sample in which only `current` is invalid. -/
def sampleCurrentInvalid : Sample := ⟨f230_5, fNaN, f276_6, F32.zero, f50, f0_95⟩

/-- A sensor sample in which every getter answers NaN. -/
def sampleAllInvalid : Sample := ⟨fNaN, fNaN, fNaN, fNaN, fNaN, fNaN⟩

/-- An iteration at clock 20100 ms with the link down throughout and the sensor silent. -/
def inputLinkDown : LoopInput :=
  { sample := sampleAllInvalid, millis107 := 20100, millis109 := 20101, millis114 := 20102,
    millis116 := 38200, wifi := fun _ => false, httpResponseCode := 0 }

/-- An iteration at clock 10000 ms with the link up and a `200` answer. -/
def inputLinkUp : LoopInput :=
  { sample := sampleCurrentInvalid, millis107 := 10000, millis109 := 10001,
    millis114 := 10002, millis116 := 10050, wifi := fun _ => true, httpResponseCode := 200 }

/-- Globals whose timers were set 296 ms before the 32-bit clock wraps. -/
def globalsBeforeWrap : Globals :=
  { boot with lastDisplayUpdate := 4294967000, lastDataSend := 4294967000 }

/-- An iteration whose clock reads are taken 2000 ms and more after `4294967000`, past
the wrap of the 32-bit clock. -/
def inputAfterWrap : LoopInput :=
  { sample := sampleCurrentInvalid, millis107 := 1704, millis109 := 1720,
    millis114 := 1721, millis116 := 1800, wifi := fun _ => true, httpResponseCode := 200 }

/-- A boot in which the display starts, the link comes up at the third poll and the
sensor does not answer. -/
def setupSensorAbsent : SetupInput :=
  { displayBegin := true, wifi := fun k => decide (2 ≤ k), voltage := fNaN }

/-! # Theorems -/

/-! ## Lemmas on the polling loop -/

theorem while_countP_zero (p : Event → Bool) (wifi : Nat → Bool)
    (hs : ∀ b, p (.wifiStatus b) = false) (hd : p (.delay 500) = false)
    (ho : ∀ op, p (.oled op) = false) (remaining attempts : Nat) :
    (connectWiFi_while wifi remaining attempts).1.countP p = 0 := by
  induction remaining generalizing attempts with
  | zero => simp [connectWiFi_while, hs]
  | succ n ih =>
    unfold connectWiFi_while
    split
    · simp [hs]
    · simp [hs, hd, ho, ih]

theorem while_pollSleeps (wifi : Nat → Bool) (remaining attempts : Nat) :
    pollSleeps (connectWiFi_while wifi remaining attempts).1 + attempts
      = (connectWiFi_while wifi remaining attempts).2 := by
  induction remaining generalizing attempts with
  | zero => simp [connectWiFi_while, pollSleeps, Event.isPollSleep]
  | succ n ih =>
    unfold connectWiFi_while
    split
    · simp [pollSleeps, Event.isPollSleep]
    · have := ih (attempts + 1)
      simp only [pollSleeps] at this ⊢
      simp [Event.isPollSleep]
      omega

theorem while_attempts_bounds (wifi : Nat → Bool) (remaining attempts : Nat) :
    attempts ≤ (connectWiFi_while wifi remaining attempts).2 ∧
    (connectWiFi_while wifi remaining attempts).2 ≤ attempts + remaining := by
  induction remaining generalizing attempts with
  | zero => simp [connectWiFi_while]
  | succ n ih =>
    unfold connectWiFi_while
    split
    · simp
    · have := ih (attempts + 1)
      simp only
      omega

theorem while_polls_before (wifi : Nat → Bool) (remaining attempts : Nat) :
    ∀ k, attempts ≤ k → k < (connectWiFi_while wifi remaining attempts).2 → wifi k = false := by
  induction remaining generalizing attempts with
  | zero => intro k h1 h2; simp [connectWiFi_while] at h2; omega
  | succ n ih =>
    unfold connectWiFi_while
    split
    · intro k h1 h2; simp at h2; omega
    · rename_i hw
      intro k h1 h2
      simp only at h2
      rcases Nat.eq_or_lt_of_le h1 with h | h
      · subst h; simpa using hw
      · exact ih (attempts + 1) k h h2

theorem while_stop (wifi : Nat → Bool) (remaining attempts : Nat) :
    (connectWiFi_while wifi remaining attempts).2 < attempts + remaining →
      wifi (connectWiFi_while wifi remaining attempts).2 = true := by
  induction remaining generalizing attempts with
  | zero => intro h; simp [connectWiFi_while] at h
  | succ n ih =>
    unfold connectWiFi_while
    split
    · rename_i hw; intro _; simpa using hw
    · intro h
      simp only at h ⊢
      exact ih (attempts + 1) (by omega)

/-! ## Counting calls in `connectWiFi` -/

theorem connectWiFi_eq (wifi : Nat → Bool) :
    connectWiFi wifi =
      [ .connectWiFi, .oled .clearDisplay, .oled (.setTextSize 1), .oled .setTextColorWhite,
        .oled (.setCursor 0 0), .oled (.println "Connecting WiFi..."), .oled (.println ssid),
        .oled .display, .wifiBegin ] ++ (connectWiFi_while wifi 30 0).1 ++
      [.wifiStatus (connectWiFi_finalStatus wifi)] ++
      (if connectWiFi_finalStatus wifi then connectWiFi_connected else connectWiFi_failed) :=
  rfl

theorem connectWiFi_connects (wifi : Nat → Bool) : connects (connectWiFi wifi) = 1 := by
  have h := while_countP_zero Event.isConnect wifi (by simp [Event.isConnect])
    (by simp [Event.isConnect]) (by simp [Event.isConnect]) 30 0
  rw [connectWiFi_eq, connects]
  cases hc : connectWiFi_finalStatus wifi <;>
    simp [List.countP_append, h, Event.isConnect, connectWiFi_connected, connectWiFi_failed,
      displayError]

theorem connectWiFi_posts (wifi : Nat → Bool) : posts (connectWiFi wifi) = 0 := by
  have h := while_countP_zero Event.isPost wifi (by simp [Event.isPost])
    (by simp [Event.isPost]) (by simp [Event.isPost]) 30 0
  rw [connectWiFi_eq, posts]
  cases hc : connectWiFi_finalStatus wifi <;>
    simp [List.countP_append, h, Event.isPost, connectWiFi_connected, connectWiFi_failed,
      displayError]

theorem connectWiFi_renders (wifi : Nat → Bool) : renders (connectWiFi wifi) = 0 := by
  have h := while_countP_zero Event.isRender wifi (by simp [Event.isRender])
    (by simp [Event.isRender]) (by simp [Event.isRender]) 30 0
  rw [connectWiFi_eq, renders]
  cases hc : connectWiFi_finalStatus wifi <;>
    simp [List.countP_append, h, Event.isRender, connectWiFi_connected, connectWiFi_failed,
      displayError]

theorem connectWiFi_uploads (wifi : Nat → Bool) : uploads (connectWiFi wifi) = 0 := by
  have h := while_countP_zero Event.isUpload wifi (by simp [Event.isUpload])
    (by simp [Event.isUpload]) (by simp [Event.isUpload]) 30 0
  rw [connectWiFi_eq, uploads]
  cases hc : connectWiFi_finalStatus wifi <;>
    simp [List.countP_append, h, Event.isUpload, connectWiFi_connected, connectWiFi_failed,
      displayError]

theorem connectWiFi_errorCalls (wifi : Nat → Bool) :
    errorCalls (connectWiFi wifi) = if connectWiFi_finalStatus wifi then 0 else 1 := by
  have h := while_countP_zero Event.isError wifi (by simp [Event.isError])
    (by simp [Event.isError]) (by simp [Event.isError]) 30 0
  rw [connectWiFi_eq, errorCalls]
  cases hc : connectWiFi_finalStatus wifi <;>
    simp [List.countP_append, h, Event.isError, connectWiFi_connected, connectWiFi_failed,
      displayError]

theorem connectWiFi_pollSleeps (wifi : Nat → Bool) :
    pollSleeps (connectWiFi wifi) = (connectWiFi_while wifi 30 0).2 := by
  have h := while_pollSleeps wifi 30 0
  rw [pollSleeps] at h
  rw [connectWiFi_eq, pollSleeps]
  cases hc : connectWiFi_finalStatus wifi <;>
    simp [List.countP_append, Event.isPollSleep, connectWiFi_connected, connectWiFi_failed,
      displayError] <;> simpa [Event.isPollSleep] using h

theorem while_no_error (wifi : Nat → Bool) (m : String) (remaining attempts : Nat) :
    Event.displayError m ∉ (connectWiFi_while wifi remaining attempts).1 := by
  induction remaining generalizing attempts with
  | zero => simp [connectWiFi_while]
  | succ n ih =>
    unfold connectWiFi_while
    split
    · simp
    · simpa using ih (attempts + 1)

theorem while_no_localIP (wifi : Nat → Bool) (remaining attempts : Nat) :
    Event.oled .printlnLocalIP ∉ (connectWiFi_while wifi remaining attempts).1 := by
  induction remaining generalizing attempts with
  | zero => simp [connectWiFi_while]
  | succ n ih =>
    unfold connectWiFi_while
    split
    · simp
    · simpa using ih (attempts + 1)

theorem connectWiFi_error_message (wifi : Nat → Bool) (m : String)
    (h : Event.displayError m ∈ connectWiFi wifi) : m = "WiFi Failed" := by
  rw [connectWiFi_eq] at h
  cases hc : connectWiFi_finalStatus wifi <;>
    simp [hc, while_no_error, connectWiFi_connected, connectWiFi_failed, displayError] at h
  exact h

/-! ## Counting calls in `updateDisplay`, `sendDataToServer` and `loop` -/

theorem countP_map_oled (p : Event → Bool) (ho : ∀ op, p (.oled op) = false) (l : List Oled) :
    (l.map Event.oled).countP p = 0 := by
  induction l with
  | nil => rfl
  | cons a l ih => simp [List.countP_cons, ho, ih]

theorem updateDisplay_renders (g : Globals) : renders (updateDisplay g) = 1 := by
  simp [renders, updateDisplay, List.countP_cons, countP_map_oled, Event.isRender]

theorem updateDisplay_uploads (g : Globals) : uploads (updateDisplay g) = 0 := by
  simp [uploads, updateDisplay, List.countP_cons, countP_map_oled, Event.isUpload]

theorem updateDisplay_errorCalls (g : Globals) : errorCalls (updateDisplay g) = 0 := by
  simp [errorCalls, updateDisplay, List.countP_cons, countP_map_oled, Event.isError]

theorem sendDataToServer_posts (wifi : Nat → Bool) (code : Int) (g : Globals) :
    posts (sendDataToServer wifi code g) = if wifi 0 then 1 else 0 := by
  have hc := connectWiFi_posts (fun k => wifi (k + 1))
  rw [posts] at hc
  unfold sendDataToServer posts
  cases h0 : wifi 0
  · simp [List.countP_append, List.countP_cons, Event.isPost, hc]
  · by_cases h : code > 0 <;>
      simp [List.countP_append, List.countP_cons, Event.isPost, h]

theorem sendDataToServer_connects (wifi : Nat → Bool) (code : Int) (g : Globals) :
    connects (sendDataToServer wifi code g) = if wifi 0 then 0 else 1 := by
  have hc := connectWiFi_connects (fun k => wifi (k + 1))
  rw [connects] at hc
  unfold sendDataToServer connects
  cases h0 : wifi 0
  · simp [List.countP_append, List.countP_cons, Event.isConnect, hc]
  · by_cases h : code > 0 <;>
      simp [List.countP_append, List.countP_cons, Event.isConnect, h]

theorem sendDataToServer_uploads (wifi : Nat → Bool) (code : Int) (g : Globals) :
    uploads (sendDataToServer wifi code g) = 1 := by
  have hc := connectWiFi_uploads (fun k => wifi (k + 1))
  rw [uploads] at hc
  unfold sendDataToServer uploads
  cases h0 : wifi 0
  · simp [List.countP_append, List.countP_cons, Event.isUpload, hc]
  · by_cases h : code > 0 <;>
      simp [List.countP_append, List.countP_cons, Event.isUpload, h]

theorem sendDataToServer_renders (wifi : Nat → Bool) (code : Int) (g : Globals) :
    renders (sendDataToServer wifi code g) = 0 := by
  have hc := connectWiFi_renders (fun k => wifi (k + 1))
  rw [renders] at hc
  unfold sendDataToServer renders
  cases h0 : wifi 0
  · simp [List.countP_append, List.countP_cons, Event.isRender, hc]
  · by_cases h : code > 0 <;>
      simp [List.countP_append, List.countP_cons, Event.isRender, h]

theorem sendDataToServer_errorCalls (wifi : Nat → Bool) (code : Int) (g : Globals) :
    errorCalls (sendDataToServer wifi code g) =
      if !wifi 0 && !connectWiFi_finalStatus (fun k => wifi (k + 1)) then 1 else 0 := by
  have hc := connectWiFi_errorCalls (fun k => wifi (k + 1))
  rw [errorCalls] at hc
  unfold sendDataToServer errorCalls
  cases h0 : wifi 0
  · cases hf : connectWiFi_finalStatus (fun k => wifi (k + 1)) <;>
      simp [List.countP_append, List.countP_cons, Event.isError, hc, hf]
  · by_cases h : code > 0 <;>
      simp [List.countP_append, List.countP_cons, Event.isError, h]

theorem sendDataToServer_error_message (wifi : Nat → Bool) (code : Int) (g : Globals)
    (m : String) (h : Event.displayError m ∈ sendDataToServer wifi code g) :
    m = "WiFi Failed" := by
  unfold sendDataToServer at h
  cases h0 : wifi 0
  · simp [h0] at h
    exact connectWiFi_error_message _ m h
  · by_cases hcode : code > 0 <;> simp [h0, hcode] at h

theorem readSensorData_timers (s : Sample) (g : Globals) :
    (readSensorData s g).lastDisplayUpdate = g.lastDisplayUpdate ∧
    (readSensorData s g).lastDataSend = g.lastDataSend ∧
    (readSensorData s g).displayPage = g.displayPage := ⟨rfl, rfl, rfl⟩

theorem displayDue_readSensorData (now : Nat) (s : Sample) (g : Globals) :
    displayDue now (readSensorData s g) = displayDue now g := rfl

theorem sendDue_after_display (inp : LoopInput) (g : Globals) :
    sendDue inp.millis114 (loop_display inp (readSensorData inp.sample g)).1 =
      sendDue inp.millis114 g := by
  unfold loop_display
  split <;> rfl

theorem loop_display_trace (inp : LoopInput) (g : Globals) :
    (loop_display inp g).2 =
      if displayDue inp.millis107 g then
        [.millis (inp.millis107 % 4294967296)] ++ updateDisplay g ++
          [.millis (inp.millis109 % 4294967296)]
      else [.millis (inp.millis107 % 4294967296)] := by
  unfold loop_display
  split <;> rfl

theorem loop_send_trace (inp : LoopInput) (g : Globals) :
    (loop_send inp g).2 =
      if sendDue inp.millis114 g then
        [.millis (inp.millis114 % 4294967296)] ++
          sendDataToServer inp.wifi inp.httpResponseCode g ++
          [.millis (inp.millis116 % 4294967296)]
      else [.millis (inp.millis114 % 4294967296)] := by
  unfold loop_send
  split <;> rfl

theorem loop_trace (inp : LoopInput) (g : Globals) :
    (loop inp g).2 =
      [.readSensorData] ++ (loop_display inp (readSensorData inp.sample g)).2 ++
        (loop_send inp (loop_display inp (readSensorData inp.sample g)).1).2 ++
        [.delay 100] := rfl

theorem loop_countP (p : Event → Bool) (hm : ∀ n, p (.millis n) = false)
    (hr : p .readSensorData = false) (hd : ∀ n, p (.delay n) = false)
    (inp : LoopInput) (g : Globals) :
    (loop inp g).2.countP p =
      (if displayDue inp.millis107 g then
        (updateDisplay (readSensorData inp.sample g)).countP p else 0) +
      (if sendDue inp.millis114 g then
        (sendDataToServer inp.wifi inp.httpResponseCode
          (loop_display inp (readSensorData inp.sample g)).1).countP p else 0) := by
  rw [loop_trace, loop_display_trace, loop_send_trace, sendDue_after_display,
    displayDue_readSensorData]
  cases displayDue inp.millis107 g <;> cases sendDue inp.millis114 g <;>
    simp [List.countP_append, List.countP_cons, hm, hr, hd]

theorem loop_renders (inp : LoopInput) (g : Globals) :
    renders (loop inp g).2 = if displayDue inp.millis107 g then 1 else 0 := by
  have hu := fun g => updateDisplay_renders g
  have hs := fun g => sendDataToServer_renders inp.wifi inp.httpResponseCode g
  simp only [renders] at hu hs ⊢
  rw [loop_countP _ (by simp [Event.isRender]) (by simp [Event.isRender])
    (by simp [Event.isRender]), hu, hs]
  simp

theorem loop_uploads (inp : LoopInput) (g : Globals) :
    uploads (loop inp g).2 = if sendDue inp.millis114 g then 1 else 0 := by
  have hu := fun g => updateDisplay_uploads g
  have hs := fun g => sendDataToServer_uploads inp.wifi inp.httpResponseCode g
  simp only [uploads] at hu hs ⊢
  rw [loop_countP _ (by simp [Event.isUpload]) (by simp [Event.isUpload])
    (by simp [Event.isUpload]), hu, hs]
  simp

theorem loop_errorCalls (inp : LoopInput) (g : Globals) :
    errorCalls (loop inp g).2 =
      if sendDue inp.millis114 g && !inp.wifi 0 &&
          !connectWiFi_finalStatus (fun k => inp.wifi (k + 1)) then 1 else 0 := by
  have hu := fun g => updateDisplay_errorCalls g
  have hs := fun g => sendDataToServer_errorCalls inp.wifi inp.httpResponseCode g
  simp only [errorCalls] at hu hs ⊢
  rw [loop_countP _ (by simp [Event.isError]) (by simp [Event.isError])
    (by simp [Event.isError]), hu, hs]
  cases sendDue inp.millis114 g <;> simp

theorem loop_error_message (inp : LoopInput) (g : Globals) (m : String)
    (h : Event.displayError m ∈ (loop inp g).2) : m = "WiFi Failed" := by
  rw [loop_trace, loop_display_trace, loop_send_trace] at h
  simp only [List.mem_append, List.mem_singleton, List.mem_cons] at h
  rcases h with ((h | h) | h) | h
  · simp at h
  · split at h
    · simp [updateDisplay] at h
    · simp at h
  · split at h
    · simp at h
      exact sendDataToServer_error_message _ _ _ m h
    · simp at h
  · simp at h

theorem ulSub_eq (a b : Nat) :
    ((ulSub a b : Nat) : Int) = ((a : Int) - (b : Int)) % 4294967296 := by
  unfold ulSub
  omega

theorem ulSub_elapsed (T e : Nat) (he : e < 4294967296) :
    ulSub ((T + e) % 4294967296) (T % 4294967296) = e := by
  unfold ulSub
  omega

/-! ## The reading seen by its consumers -/

theorem isnan_coerced (x : F32) : isnan (if isnan x then F32.zero else x) = false := by
  by_cases h : isnan x = true
  · rw [if_pos h]; rfl
  · rw [if_neg h]; simpa using h

theorem readSensorData_noNaN (s : Sample) (g : Globals) :
    (readSensorData s g).reading.noNaN = true := by
  simp [readSensorData, Reading.noNaN, isnan_coerced]

theorem while_readsNoNaN (wifi : Nat → Bool) (remaining attempts : Nat) :
    ∀ e ∈ (connectWiFi_while wifi remaining attempts).1, e.readsNoNaN := by
  induction remaining generalizing attempts with
  | zero => intro e he; simp only [connectWiFi_while, List.mem_singleton] at he; subst he; trivial
  | succ n ih =>
    unfold connectWiFi_while
    split
    · intro e he; simp only [List.mem_singleton] at he; subst he; trivial
    · simp only [List.forall_mem_cons]
      exact ⟨trivial, trivial, trivial, trivial, ih (attempts + 1)⟩

theorem displayError_readsNoNaN (m : String) : ∀ e ∈ displayError m, e.readsNoNaN := by
  simp only [displayError, List.forall_mem_cons]
  and_intros
  all_goals first | exact True.intro | (intro _ hx; cases hx)

theorem connectWiFi_readsNoNaN (wifi : Nat → Bool) :
    ∀ e ∈ connectWiFi wifi, e.readsNoNaN := by
  have hw := while_readsNoNaN wifi 30 0
  have he := displayError_readsNoNaN "WiFi Failed"
  rw [connectWiFi_eq]
  cases connectWiFi_finalStatus wifi
  · simp only [connectWiFi_failed, List.forall_mem_append, List.forall_mem_cons,
      Bool.false_eq_true, if_false]
    and_intros
    all_goals first | exact True.intro | exact hw | exact he | (intro _ hx; cases hx)
  · simp only [connectWiFi_connected, List.forall_mem_append, List.forall_mem_cons, if_true]
    and_intros
    all_goals first | exact True.intro | exact hw | exact he | (intro _ hx; cases hx)

theorem updateDisplay_readsNoNaN (g : Globals) (h : g.reading.noNaN = true) :
    ∀ e ∈ updateDisplay g, e.readsNoNaN := by
  have h' := h
  simp only [Reading.noNaN, Bool.and_eq_true, Bool.not_eq_true'] at h'
  obtain ⟨⟨⟨⟨⟨h1, h2⟩, h3⟩, h4⟩, h5⟩, h6⟩ := h'
  unfold updateDisplay updateDisplay_ops updateDisplay_switch
  split <;>
    · simp only [List.map_cons, List.map_nil, List.cons_append, List.nil_append,
        List.forall_mem_cons]
      and_intros
      all_goals first
        | exact True.intro | exact h | exact h1 | exact h2 | exact h3
        | exact h4 | exact h5 | exact h6 | (intro _ hx; cases hx)

theorem sendDataToServer_down (wifi : Nat → Bool) (code : Int) (g : Globals)
    (h : wifi 0 = false) :
    sendDataToServer wifi code g =
      [.sendDataToServer g, .wifiStatus false] ++ connectWiFi (fun k => wifi (k + 1)) := by
  simp [sendDataToServer, h]

theorem sendDataToServer_up (wifi : Nat → Bool) (code : Int) (g : Globals)
    (h : wifi 0 = true) :
    sendDataToServer wifi code g =
      [ .sendDataToServer g, .wifiStatus true, .http (.begin serverUrl),
        .http (.addHeader "Content-Type"), .http (.addHeader "X-API-Key"),
        .http (.POST (jsonPayload g.reading)) ] ++
      (if code > 0 then [.http .getString] else []) ++ [.http .end_] := by
  simp [sendDataToServer, h]

theorem sendDataToServer_readsNoNaN (wifi : Nat → Bool) (code : Int) (g : Globals)
    (h : g.reading.noNaN = true) :
    ∀ e ∈ sendDataToServer wifi code g, e.readsNoNaN := by
  have hc := connectWiFi_readsNoNaN (fun k => wifi (k + 1))
  have hp : (Event.http (.POST (jsonPayload g.reading))).readsNoNaN := ⟨g.reading, h, rfl⟩
  cases h0 : wifi 0
  · rw [sendDataToServer_down wifi code g h0]
    simp only [List.forall_mem_append, List.forall_mem_cons]
    and_intros
    all_goals first | exact True.intro | exact h | exact hc | (intro _ hx; cases hx)
  · rw [sendDataToServer_up wifi code g h0]
    split <;>
      · simp only [List.forall_mem_append, List.forall_mem_cons]
        and_intros
        all_goals first | exact True.intro | exact h | exact hp | (intro _ hx; cases hx)

theorem loop_display_reading (inp : LoopInput) (g : Globals) :
    (loop_display inp g).1.reading = g.reading := by
  unfold loop_display
  split <;> rfl

theorem loop_readsNoNaN (inp : LoopInput) (g : Globals) :
    ∀ e ∈ (loop inp g).2, e.readsNoNaN := by
  have hn := readSensorData_noNaN inp.sample g
  have hu := updateDisplay_readsNoNaN _ hn
  have hs := sendDataToServer_readsNoNaN inp.wifi inp.httpResponseCode
    (loop_display inp (readSensorData inp.sample g)).1 (by rw [loop_display_reading]; exact hn)
  rw [loop_trace, loop_display_trace, loop_send_trace]
  split <;> split <;>
    · simp only [List.forall_mem_append, List.forall_mem_cons]
      and_intros
      all_goals first | exact True.intro | exact hu | exact hs | (intro _ hx; cases hx)

theorem run_readsNoNaN (inputs : List LoopInput) (g : Globals) :
    ∀ e ∈ (run inputs g).2, e.readsNoNaN := by
  induction inputs generalizing g with
  | nil => intro e he; cases he
  | cons inp rest ih =>
    simp only [run, List.forall_mem_append]
    exact ⟨loop_readsNoNaN inp g, ih _⟩

theorem setup_readsNoNaN (si : SetupInput) (g g1 : Globals) (t : List Event)
    (h : setup si g = some (g1, t)) : ∀ e ∈ t, e.readsNoNaN := by
  have hc := connectWiFi_readsNoNaN si.wifi
  have he := displayError_readsNoNaN "PZEM Error"
  unfold setup at h
  split at h
  · cases h
  · simp only [Option.some.injEq, Prod.mk.injEq] at h
    obtain ⟨-, rfl⟩ := h
    split <;>
      · simp only [List.forall_mem_append, List.forall_mem_cons, displayBootScreen]
        and_intros
        all_goals first | exact True.intro | exact hc | exact he | (intro _ hx; cases hx)

/-! ## The page index -/

theorem loop_send_displayPage (inp : LoopInput) (g : Globals) :
    (loop_send inp g).1.displayPage = g.displayPage := by
  unfold loop_send
  split <;> rfl

theorem loop_displayPage (inp : LoopInput) (g : Globals) :
    (loop inp g).1.displayPage =
      if displayDue inp.millis107 g then Int.tmod (g.displayPage + 1) 6 else g.displayPage := by
  have e : (loop inp g).1 = (loop_send inp (loop_display inp (readSensorData inp.sample g)).1).1 :=
    rfl
  rw [e, loop_send_displayPage]
  unfold loop_display
  rw [displayDue_readSensorData]
  split <;> rfl

theorem renders_append (a b : List Event) : renders (a ++ b) = renders a + renders b := by
  simp [renders, List.countP_append]

theorem run_displayPage (inputs : List LoopInput) (g : Globals)
    (h0 : 0 ≤ g.displayPage) (h5 : g.displayPage ≤ 5) :
    (run inputs g).1.displayPage = (g.displayPage + (renders (run inputs g).2 : Int)) % 6 := by
  induction inputs generalizing g with
  | nil => simp [run, renders]; omega
  | cons inp rest ih =>
    have hp := loop_displayPage inp g
    have hr := loop_renders inp g
    simp only [run, renders_append]
    by_cases hd : displayDue inp.millis107 g = true
    · rw [if_pos hd] at hp hr
      rw [Int.tmod_eq_emod (by omega) (by omega)] at hp
      rw [ih (loop inp g).1 (by omega) (by omega), hp, hr]
      push_cast
      omega
    · rw [if_neg hd] at hp hr
      rw [ih (loop inp g).1 (by omega) (by omega), hp, hr]
      push_cast
      omega

theorem setup_renders (si : SetupInput) (g g1 : Globals) (t : List Event)
    (h : setup si g = some (g1, t)) : renders t = 0 ∧ g1.displayPage = g.displayPage := by
  have hc := connectWiFi_renders si.wifi
  unfold renders at hc ⊢
  unfold setup at h
  split at h
  · cases h
  · simp only [Option.some.injEq, Prod.mk.injEq] at h
    obtain ⟨rfl, rfl⟩ := h
    refine ⟨?_, rfl⟩
    split <;>
      simp [List.countP_append, List.countP_cons, displayBootScreen, displayError,
        Event.isRender, hc]

theorem setup_of_begin (si : SetupInput) (g : Globals) (h : si.displayBegin = true) :
    ∃ g1 t1, setup si g = some (g1, t1) := by
  unfold setup
  simp [h]

theorem program_of_setup (si : SetupInput) (inputs : List LoopInput) (g1 : Globals)
    (t1 : List Event) (h : setup si boot = some (g1, t1)) :
    program si inputs = some ((run inputs g1).1, t1 ++ (run inputs g1).2) := by
  unfold program
  rw [h]

/-! ## The number format -/

theorem digitChar_isDigit (d : Nat) (h : d < 10) : (Nat.digitChar d).isDigit = true := by
  interval_cases d <;> rfl

theorem toDigitsCore_isDigit (fuel : Nat) :
    ∀ (n : Nat) (ds : List Char), (∀ c ∈ ds, c.isDigit = true) →
      ∀ c ∈ Nat.toDigitsCore 10 fuel n ds, c.isDigit = true := by
  induction fuel with
  | zero => intro n ds h; simpa [Nat.toDigitsCore] using h
  | succ f ih =>
    intro n ds h
    have hd : ∀ c ∈ Nat.digitChar (n % 10) :: ds, c.isDigit = true := by
      intro c hc
      rcases List.mem_cons.mp hc with rfl | hc
      · exact digitChar_isDigit _ (Nat.mod_lt _ (by decide))
      · exact h c hc
    unfold Nat.toDigitsCore
    simp only
    split
    · exact hd
    · exact ih _ _ hd

theorem toDigitsCore_ne_nil (fuel : Nat) :
    ∀ (n : Nat) (ds : List Char), ds ≠ [] → Nat.toDigitsCore 10 fuel n ds ≠ [] := by
  induction fuel with
  | zero => intro n ds h; simpa [Nat.toDigitsCore] using h
  | succ f ih =>
    intro n ds _
    unfold Nat.toDigitsCore
    simp only
    split
    · simp
    · exact ih _ _ (by simp)

theorem toDigits_isDigit (n : Nat) : ∀ c ∈ Nat.toDigits 10 n, c.isDigit = true :=
  toDigitsCore_isDigit (n + 1) n [] (by simp)

theorem toDigits_ne_nil (n : Nat) : Nat.toDigits 10 n ≠ [] := by
  unfold Nat.toDigits Nat.toDigitsCore
  simp only
  split
  · simp
  · exact toDigitsCore_ne_nil _ _ _ (by simp)

theorem fracDigits_length (n count : Nat) : (fracDigits n count).length = count := by
  induction count with
  | zero => rfl
  | succ k ih => simp [fracDigits, ih]

theorem fracDigits_isDigit (n count : Nat) : ∀ c ∈ fracDigits n count, c.isDigit = true := by
  induction count with
  | zero => simp [fracDigits]
  | succ k ih =>
    intro c hc
    rcases List.mem_cons.mp hc with rfl | hc
    · exact digitChar_isDigit _ (Nat.mod_lt _ (by decide))
    · exact ih c hc

theorem takeWhile_digits (w rest : List Char) (hw : ∀ c ∈ w, c.isDigit = true) :
    (w ++ '.' :: rest).takeWhile Char.isDigit = w := by
  induction w with
  | nil => rfl
  | cons a w ih =>
    have ha : a.isDigit = true := hw a (by simp)
    simp [List.takeWhile, ha, ih (fun c hc => hw c (by simp [hc]))]

theorem dropWhile_digits (w rest : List Char) (hw : ∀ c ∈ w, c.isDigit = true) :
    (w ++ '.' :: rest).dropWhile Char.isDigit = '.' :: rest := by
  induction w with
  | nil => rfl
  | cons a w ih =>
    have ha : a.isDigit = true := hw a (by simp)
    simp [List.dropWhile, ha, ih (fun c hc => hw c (by simp [hc]))]

theorem isFixedDecimal_of_parts (n : Nat) (sign w frac : List Char)
    (hs : sign = [] ∨ sign = ['-']) (hw : ∀ c ∈ w, c.isDigit = true) (hne : w ≠ [])
    (hl : frac.length = n) (hf : ∀ c ∈ frac, c.isDigit = true) :
    isFixedDecimal n (String.mk (sign ++ w ++ '.' :: frac)) = true := by
  have hbody : (match sign ++ w ++ '.' :: frac with
      | '-' :: rest => rest
      | cs => cs) = w ++ '.' :: frac := by
    rcases hs with rfl | rfl
    · cases w with
      | nil => exact absurd rfl hne
      | cons a w =>
        have ha : a.isDigit = true := hw a (by simp)
        have : a ≠ '-' := by rintro rfl; exact absurd ha (by decide)
        simp only [List.nil_append, List.cons_append]
        split
        · rename_i heq
          simp only [List.cons.injEq] at heq
          exact absurd heq.1 this
        · rfl
    · rfl
  unfold isFixedDecimal
  simp only [hbody, dropWhile_digits w frac hw, takeWhile_digits w frac hw]
  simp [hl, hne]
  exact hf

theorem String_float_fixed (x : F32) (n : Nat) (hx : x.isFinite = true) (hn : n ≠ 0) :
    isFixedDecimal n (String_float x n) = true := by
  have h1 : isnan x = false := by
    simp only [F32.isFinite, bne_iff_ne, ne_eq] at hx
    simp [isnan, hx]
  have h2 : isinf x = false := by
    simp only [F32.isFinite, bne_iff_ne, ne_eq] at hx
    simp [isinf, hx]
  unfold String_float
  simp only [h1, h2, hn, if_false, Bool.false_eq_true]
  apply isFixedDecimal_of_parts
  · split <;> simp
  · exact toDigits_isDigit _
  · exact toDigits_ne_nil _
  · exact fracDigits_length _ _
  · exact fracDigits_isDigit _ _

/-! ## Telemetry reader -/

/-- C1: after `readSensorData` every field of the reading is `0.0` when the getter answered
NaN and the getter's answer, unchanged, otherwise; the timers and the page are untouched.
With a sample in which only `current` is NaN, `current` becomes `0.0` and the five other
fields pass through. -/
theorem readSensorData_replaces_nan (s : Sample) (g : Globals) :
    (readSensorData s g).reading.voltage = (if isnan s.voltage then F32.zero else s.voltage) ∧
    (readSensorData s g).reading.current = (if isnan s.current then F32.zero else s.current) ∧
    (readSensorData s g).reading.power = (if isnan s.power then F32.zero else s.power) ∧
    (readSensorData s g).reading.energy = (if isnan s.energy then F32.zero else s.energy) ∧
    (readSensorData s g).reading.frequency =
      (if isnan s.frequency then F32.zero else s.frequency) ∧
    (readSensorData s g).reading.pf = (if isnan s.pf then F32.zero else s.pf) ∧
    (readSensorData sampleCurrentInvalid g).reading =
      ⟨f230_5, F32.zero, f276_6, F32.zero, f50, f0_95⟩ ∧
    isnan sampleCurrentInvalid.current = true :=
  ⟨rfl, rfl, rfl, rfl, rfl, rfl, rfl, by decide⟩

/-! ## Uploader: link check -/

/-- C3: a call of `sendDataToServer` whose status query finds the link down issues no
HTTP POST and enters `connectWiFi` exactly once; one that finds the link up issues exactly
one POST and does not enter `connectWiFi`. -/
theorem sendDataToServer_link_check (wifi : Nat → Bool) (httpResponseCode : Int)
    (g : Globals) :
    (wifi 0 = false →
      posts (sendDataToServer wifi httpResponseCode g) = 0 ∧
      connects (sendDataToServer wifi httpResponseCode g) = 1) ∧
    (wifi 0 = true →
      posts (sendDataToServer wifi httpResponseCode g) = 1 ∧
      connects (sendDataToServer wifi httpResponseCode g) = 0) := by
  rw [sendDataToServer_posts, sendDataToServer_connects]
  constructor <;> intro h <;> simp [h]

theorem sendDataToServer_link_check_witness :
    (inputLinkDown.wifi 0 = false ∧
      posts (sendDataToServer inputLinkDown.wifi 0 boot) = 0 ∧
      connects (sendDataToServer inputLinkDown.wifi 0 boot) = 1) ∧
    (inputLinkUp.wifi 0 = true ∧
      posts (sendDataToServer inputLinkUp.wifi 200 boot) = 1 ∧
      connects (sendDataToServer inputLinkUp.wifi 200 boot) = 0) :=
  ⟨⟨rfl, (sendDataToServer_link_check inputLinkDown.wifi 0 boot).1 rfl⟩,
   ⟨rfl, (sendDataToServer_link_check inputLinkUp.wifi 200 boot).2 rfl⟩⟩

/-! ## Scheduler -/

/-- C6: one iteration of `loop` enters `updateDisplay` at most once and
`sendDataToServer` at most once, whatever the clock answers and the timers are; an action
that fires sets its timer to the clock value read after it, so elapsed intervals are not
replayed. -/
theorem loop_at_most_one_each (inp : LoopInput) (g : Globals) :
    renders (loop inp g).2 ≤ 1 ∧ uploads (loop inp g).2 ≤ 1 ∧
    (renders (loop inp g).2 = 1 →
      (loop inp g).1.lastDisplayUpdate = inp.millis109 % 4294967296) ∧
    (uploads (loop inp g).2 = 1 →
      (loop inp g).1.lastDataSend = inp.millis116 % 4294967296) := by
  rw [loop_renders, loop_uploads]
  refine ⟨by split <;> simp, by split <;> simp, ?_, ?_⟩
  · intro h
    have hd : displayDue inp.millis107 (readSensorData inp.sample g) = true := by
      rw [displayDue_readSensorData]; by_contra hc; simp [hc] at h
    simp only [loop, loop_display, loop_send, hd, if_true]
    split <;> rfl
  · intro h
    have hs : sendDue inp.millis114 (loop_display inp (readSensorData inp.sample g)).1
        = true := by
      rw [sendDue_after_display]; by_contra hc; simp [hc] at h
    simp only [loop, loop_send, hs, if_true]

theorem loop_at_most_one_each_witness :
    renders (loop inputLinkUp boot).2 = 1 ∧ uploads (loop inputLinkUp boot).2 = 1 ∧
    (loop inputLinkUp boot).1.lastDisplayUpdate = 10001 ∧
    (loop inputLinkUp boot).1.lastDataSend = 10050 :=
  ⟨by decide, by decide,
   (loop_at_most_one_each inputLinkUp boot).2.2.1 (by decide),
   (loop_at_most_one_each inputLinkUp boot).2.2.2 (by decide)⟩

/-- C10: in an iteration of `loop` the display action fires exactly when
`(now - lastDisplayUpdate) mod 2^32 ≥ 2000` and the upload action exactly when
`(now - lastDataSend) mod 2^32 ≥ 10000`, `now` being the answer of the `millis()` call of
the check. Hence if the timer holds the clock value of true time `T` and the check reads
the clock at true time `T + e` with `e < 2^32`, the action fires exactly when `e` is at
least the interval, across a wrap of the 32-bit clock as well. -/
theorem loop_elapsed_check (inp : LoopInput) (g : Globals) :
    (renders (loop inp g).2 = 1 ↔
      2000 ≤ ((inp.millis107 : Int) - (g.lastDisplayUpdate : Int)) % 4294967296) ∧
    (uploads (loop inp g).2 = 1 ↔
      10000 ≤ ((inp.millis114 : Int) - (g.lastDataSend : Int)) % 4294967296) ∧
    (∀ T e : Nat, e < 4294967296 → g.lastDisplayUpdate = T % 4294967296 →
      inp.millis107 = (T + e) % 4294967296 →
      (renders (loop inp g).2 = 1 ↔ 2000 ≤ e)) ∧
    (∀ T e : Nat, e < 4294967296 → g.lastDataSend = T % 4294967296 →
      inp.millis114 = (T + e) % 4294967296 →
      (uploads (loop inp g).2 = 1 ↔ 10000 ≤ e)) := by
  rw [loop_renders, loop_uploads]
  have h1 := ulSub_eq inp.millis107 g.lastDisplayUpdate
  have h2 := ulSub_eq inp.millis114 g.lastDataSend
  refine ⟨?_, ?_, ?_, ?_⟩
  · rw [← h1]
    simp only [displayDue, displayInterval]
    split <;> simp_all <;> omega
  · rw [← h2]
    simp only [sendDue, sendInterval]
    split <;> simp_all <;> omega
  · intro T e he hl hn
    have := ulSub_elapsed T e he
    simp only [displayDue, displayInterval, hl, hn, this]
    split <;> simp_all
  · intro T e he hl hn
    have := ulSub_elapsed T e he
    simp only [sendDue, sendInterval, hl, hn, this]
    split <;> simp_all

theorem loop_elapsed_check_witness :
    (2000 < 4294967296 ∧ globalsBeforeWrap.lastDisplayUpdate = 4294967000 % 4294967296 ∧
      inputAfterWrap.millis107 = (4294967000 + 2000) % 4294967296) ∧
    renders (loop inputAfterWrap globalsBeforeWrap).2 = 1 :=
  ⟨⟨by decide, rfl, rfl⟩,
   ((loop_elapsed_check inputAfterWrap globalsBeforeWrap).2.2.1 4294967000 2000
      (by decide) rfl rfl).2 (by decide)⟩

/-! ## Error render path -/

/-- C7 (as stated, refuted): the iteration `inputLinkDown` from the boot globals, whose
upload is due while the link stays down, calls `displayError "WiFi Failed"`. -/
theorem loop_calls_displayError :
    Event.displayError "WiFi Failed" ∈ (loop inputLinkDown boot).2 ∧
    errorCalls (loop inputLinkDown boot).2 = 1 := by
  constructor <;> decide

/-- C7 (amended): an iteration of `loop` calls `displayError` exactly when its upload is
due, the status query of `sendDataToServer` finds the link down and the status query that
follows the polling of `connectWiFi` is not connected; it then calls it once, with the
message `WiFi Failed`. Every other iteration does not call it. -/
theorem loop_displayError_iff (inp : LoopInput) (g : Globals) :
    errorCalls (loop inp g).2 =
      (if sendDue inp.millis114 g && !inp.wifi 0 &&
          !connectWiFi_finalStatus (fun k => inp.wifi (k + 1)) then 1 else 0) ∧
    (∀ m, Event.displayError m ∈ (loop inp g).2 → m = "WiFi Failed") :=
  ⟨loop_errorCalls inp g, fun m h => loop_error_message inp g m h⟩

theorem loop_displayError_iff_witness :
    Event.displayError "WiFi Failed" ∈ (loop inputLinkDown boot).2 ∧
    "WiFi Failed" = "WiFi Failed" ∧ errorCalls (loop inputLinkUp boot).2 = 0 :=
  ⟨by decide,
   (loop_displayError_iff inputLinkDown boot).2 "WiFi Failed" (by decide),
   by rw [(loop_displayError_iff inputLinkUp boot).1]; decide⟩

/-! ## Connectivity manager -/

/-- C8: `connectWiFi` returns for every sequence of status answers. It makes `n ≤ 30`
polling sleeps of 500 ms (at most 15000 ms), where every poll before the `n`-th is not
connected and, when `n < 30`, poll `n` is connected: polling stops at the first connected
poll. After polling, the next status answer selects the path: connected shows the assigned
address, calls no `displayError` and ends with `delay(2000)`; otherwise `displayError` is
called once, with `WiFi Failed`, no address is shown, and it ends with `delay(3000)`. -/
theorem connectWiFi_bounded_polling (wifi : Nat → Bool) :
    pollSleeps (connectWiFi wifi) = (connectWiFi_while wifi 30 0).2 ∧
    (connectWiFi_while wifi 30 0).2 ≤ 30 ∧
    500 * pollSleeps (connectWiFi wifi) ≤ 15000 ∧
    (∀ k, k < (connectWiFi_while wifi 30 0).2 → wifi k = false) ∧
    ((connectWiFi_while wifi 30 0).2 < 30 → wifi (connectWiFi_while wifi 30 0).2 = true) ∧
    (wifi ((connectWiFi_while wifi 30 0).2 + 1) = true →
      Event.oled .printlnLocalIP ∈ connectWiFi wifi ∧ errorCalls (connectWiFi wifi) = 0 ∧
      (connectWiFi wifi).getLast? = some (.delay 2000)) ∧
    (wifi ((connectWiFi_while wifi 30 0).2 + 1) = false →
      Event.displayError "WiFi Failed" ∈ connectWiFi wifi ∧
      errorCalls (connectWiFi wifi) = 1 ∧
      Event.oled .printlnLocalIP ∉ connectWiFi wifi ∧
      (connectWiFi wifi).getLast? = some (.delay 3000)) := by
  have hb := while_attempts_bounds wifi 30 0
  have hp := connectWiFi_pollSleeps wifi
  refine ⟨hp, by omega, by omega, fun k hk => while_polls_before wifi 30 0 k (by omega) hk,
    fun h => while_stop wifi 30 0 (by omega), ?_, ?_⟩
  · intro h
    have hf : connectWiFi_finalStatus wifi = true := h
    refine ⟨?_, by rw [connectWiFi_errorCalls, hf]; rfl, ?_⟩
    · rw [connectWiFi_eq, hf]; simp [connectWiFi_connected]
    · have e : connectWiFi wifi =
          ([ .connectWiFi, .oled .clearDisplay, .oled (.setTextSize 1),
             .oled .setTextColorWhite, .oled (.setCursor 0 0),
             .oled (.println "Connecting WiFi..."), .oled (.println ssid), .oled .display,
             .wifiBegin ] ++ (connectWiFi_while wifi 30 0).1 ++
           [ .wifiStatus true, .oled .clearDisplay, .oled (.setCursor 0 0),
             .oled (.println "WiFi Connected!"), .oled (.print "IP: "),
             .oled .printlnLocalIP, .oled .display ]) ++ [.delay 2000] := by
        rw [connectWiFi_eq, hf]; simp [connectWiFi_connected]
      rw [e, List.getLast?_concat]
  · intro h
    have hf : connectWiFi_finalStatus wifi = false := h
    refine ⟨?_, by rw [connectWiFi_errorCalls, hf]; rfl, ?_, ?_⟩
    · rw [connectWiFi_eq, hf]; simp [connectWiFi_failed, displayError]
    · rw [connectWiFi_eq, hf]
      simp [connectWiFi_failed, displayError, while_no_localIP, ssid]
    · have e : connectWiFi wifi =
          ([ .connectWiFi, .oled .clearDisplay, .oled (.setTextSize 1),
             .oled .setTextColorWhite, .oled (.setCursor 0 0),
             .oled (.println "Connecting WiFi..."), .oled (.println ssid), .oled .display,
             .wifiBegin ] ++ (connectWiFi_while wifi 30 0).1 ++
           (.wifiStatus false :: displayError "WiFi Failed")) ++ [.delay 3000] := by
        rw [connectWiFi_eq, hf]; simp [connectWiFi_failed]
      rw [e, List.getLast?_concat]

theorem connectWiFi_bounded_polling_witness :
    (setupSensorAbsent.wifi 1 = false ∧ setupSensorAbsent.wifi 2 = true ∧
      setupSensorAbsent.wifi 3 = true) ∧
    pollSleeps (connectWiFi setupSensorAbsent.wifi) = 2 ∧
    Event.oled .printlnLocalIP ∈ connectWiFi setupSensorAbsent.wifi ∧
    (inputLinkDown.wifi 31 = false ∧
      Event.displayError "WiFi Failed" ∈ connectWiFi inputLinkDown.wifi) :=
  ⟨⟨by decide, by decide, by decide⟩,
   by rw [(connectWiFi_bounded_polling setupSensorAbsent.wifi).1]; decide,
   ((connectWiFi_bounded_polling setupSensorAbsent.wifi).2.2.2.2.2.1 (by decide)).1,
   ⟨rfl, ((connectWiFi_bounded_polling inputLinkDown.wifi).2.2.2.2.2.2 (by decide)).1⟩⟩

/-! ## Display presenter -/

/-- C4: in every run of the program (`setup` from the initial globals, then any number of
`loop` iterations) the page index after the run equals the number of renders made modulo 6,
so it lies in `[0,5]`; and an iteration that does not render leaves the index unchanged. -/
theorem displayPage_counts_renders (si : SetupInput) (inputs : List LoopInput)
    (h : si.displayBegin = true) :
    (∃ g t, program si inputs = some (g, t) ∧
      g.displayPage = ((renders t % 6 : Nat) : Int) ∧ 0 ≤ g.displayPage ∧ g.displayPage ≤ 5) ∧
    (∀ (inp : LoopInput) (g0 : Globals), renders (loop inp g0).2 = 0 →
      (loop inp g0).1.displayPage = g0.displayPage) := by
  constructor
  · obtain ⟨g1, t1, hs⟩ := setup_of_begin si boot h
    obtain ⟨hr, hp⟩ := setup_renders si boot g1 t1 hs
    have hp0 : g1.displayPage = 0 := hp
    have hrun := run_displayPage inputs g1 (by omega) (by omega)
    refine ⟨_, _, program_of_setup si inputs g1 t1 hs, ?_, ?_, ?_⟩
    · rw [hrun, renders_append, hr, hp0]
      push_cast
      omega
    · rw [hrun]; omega
    · rw [hrun]; omega
  · intro inp g0 hr
    rw [loop_renders] at hr
    rw [loop_displayPage]
    split
    · rename_i hd; simp [hd] at hr
    · rfl

theorem displayPage_counts_renders_witness :
    setupSensorAbsent.displayBegin = true ∧
    ∃ g t, program setupSensorAbsent [inputLinkUp, inputLinkDown] = some (g, t) ∧
      g.displayPage = ((renders t % 6 : Nat) : Int) ∧ 0 ≤ g.displayPage ∧ g.displayPage ≤ 5 :=
  ⟨rfl, (displayPage_counts_renders setupSensorAbsent [inputLinkUp, inputLinkDown] rfl).1⟩

/-- C5: for each page index `p` in `[0,5]` and every reading, `updateDisplay` first clears
the frame, then draws exactly what row `p` of the table of §4.3 says (the label lines, the
row's field with the row's number of decimals, the unit if any) and flushes the frame
once, at the end. -/
theorem updateDisplay_draws_table_row (p : Fin 6) (g : Globals) :
    updateDisplay { g with displayPage := (p.val : Int) } =
      .updateDisplay { g with displayPage := (p.val : Int) } ::
        (updateDisplay_ops { g with displayPage := (p.val : Int) }).map .oled ∧
    (updateDisplay_ops { g with displayPage := (p.val : Int) }).head? = some .clearDisplay ∧
    (updateDisplay_ops { g with displayPage := (p.val : Int) }).getLast? = some .display ∧
    (updateDisplay_ops { g with displayPage := (p.val : Int) }).count .clearDisplay = 1 ∧
    (updateDisplay_ops { g with displayPage := (p.val : Int) }).count .display = 1 ∧
    (updateDisplay_ops { g with displayPage := (p.val : Int) }).filter Oled.isDraw =
      (pageTable p).drawn g.reading := by
  refine ⟨rfl, rfl, ?_, ?_, ?_, ?_⟩
  · fin_cases p <;> rfl
  · fin_cases p <;> simp [updateDisplay_ops, updateDisplay_switch, List.count_cons]
  · fin_cases p <;> simp [updateDisplay_ops, updateDisplay_switch, List.count_cons]
  · fin_cases p <;> rfl

/-! ## Reading invariant -/

/-- C9: in every run of the program whose `setup` returns, at every entry into
`updateDisplay` and `sendDataToServer`, in every value drawn and in every reading a POSTed
payload is built from, no field of the reading is NaN, whatever the sensor answers; the
unchecked `voltage` stored by `setup` is overwritten by `readSensorData` before the first
consumer runs. -/
theorem consumers_never_read_nan (si : SetupInput) (inputs : List LoopInput)
    (h : si.displayBegin = true) :
    ∃ g t, program si inputs = some (g, t) ∧ ∀ e ∈ t, e.readsNoNaN := by
  obtain ⟨g1, t1, hs⟩ := setup_of_begin si boot h
  refine ⟨_, _, program_of_setup si inputs g1 t1 hs, ?_⟩
  rw [List.forall_mem_append]
  exact ⟨setup_readsNoNaN si boot g1 t1 hs, run_readsNoNaN inputs g1⟩

theorem consumers_never_read_nan_witness :
    (setupSensorAbsent.displayBegin = true ∧ isnan setupSensorAbsent.voltage = true) ∧
    ∃ g t, program setupSensorAbsent [inputLinkUp, inputLinkDown] = some (g, t) ∧
      ∀ e ∈ t, e.readsNoNaN :=
  ⟨⟨rfl, by decide⟩, consumers_never_read_nan setupSensorAbsent [inputLinkUp, inputLinkDown] rfl⟩

/-! ## Uploader: payload -/

theorem scenarioReading_nearest :
    f230_5.scaledAbs * 2 = 461 * 2 ^ 149 ∧
    (6 * 2 ^ 149 ≤ f1_2.scaledAbs * 5 + 5 * 2 ^ 125 ∧
      f1_2.scaledAbs * 5 ≤ 6 * 2 ^ 149 + 5 * 2 ^ 125) ∧
    (1383 * 2 ^ 149 ≤ f276_6.scaledAbs * 5 + 5 * 2 ^ 133 ∧
      f276_6.scaledAbs * 5 ≤ 1383 * 2 ^ 149 + 5 * 2 ^ 133) ∧
    f50.scaledAbs = 50 * 2 ^ 149 ∧
    (19 * 2 ^ 149 ≤ f0_95.scaledAbs * 20 + 20 * 2 ^ 124 ∧
      f0_95.scaledAbs * 20 ≤ 19 * 2 ^ 149 + 20 * 2 ^ 124) := by
  refine ⟨by decide, ⟨by decide, by decide⟩, ⟨by decide, by decide⟩, by decide,
    ⟨by decide, by decide⟩⟩

/-- C2: for every reading the payload built by `sendDataToServer` is the flat JSON object
with the keys `voltage, current, power, energy, frequency, power_factor` in this order,
the values printed by `String(value, d)` with `d = 2, 3, 2, 3, 2, 3`; for finite values
each printed value has exactly that many digits after the point whatever its magnitude
(`0` prints as `0.00`); the payload is what a call with the link up POSTs; and the reading
of the end-to-end scenario gives exactly the payload of §8. -/
theorem jsonPayload_fixed_format (r : Reading) :
    jsonPayload r =
      "\x7b\"voltage\":" ++ String_float r.voltage 2 ++
      ",\"current\":" ++ String_float r.current 3 ++
      ",\"power\":" ++ String_float r.power 2 ++
      ",\"energy\":" ++ String_float r.energy 3 ++
      ",\"frequency\":" ++ String_float r.frequency 2 ++
      ",\"power_factor\":" ++ String_float r.pf 3 ++ "\x7d" ∧
    (r.allFinite = true →
      isFixedDecimal 2 (String_float r.voltage 2) = true ∧
      isFixedDecimal 3 (String_float r.current 3) = true ∧
      isFixedDecimal 2 (String_float r.power 2) = true ∧
      isFixedDecimal 3 (String_float r.energy 3) = true ∧
      isFixedDecimal 2 (String_float r.frequency 2) = true ∧
      isFixedDecimal 3 (String_float r.pf 3) = true) ∧
    String_float F32.zero 2 = "0.00" ∧
    (∀ (wifi : Nat → Bool) (code : Int) (g : Globals), wifi 0 = true → g.reading = r →
      Event.http (.POST (jsonPayload r)) ∈ sendDataToServer wifi code g) ∧
    jsonPayload scenarioReading =
      "\x7b\"voltage\":230.50,\"current\":1.200,\"power\":276.60,\"energy\":0.000,\"frequency\":50.00,\"power_factor\":0.950\x7d" := by
  refine ⟨?_, ?_, by decide, ?_, by decide⟩
  · simp only [jsonPayload, String.append_assoc]
    rfl
  · intro h
    simp only [Reading.allFinite, Bool.and_eq_true] at h
    obtain ⟨⟨⟨⟨⟨h1, h2⟩, h3⟩, h4⟩, h5⟩, h6⟩ := h
    exact ⟨String_float_fixed _ 2 h1 (by decide), String_float_fixed _ 3 h2 (by decide),
      String_float_fixed _ 2 h3 (by decide), String_float_fixed _ 3 h4 (by decide),
      String_float_fixed _ 2 h5 (by decide), String_float_fixed _ 3 h6 (by decide)⟩
  · intro wifi code g h0 hr
    rw [sendDataToServer_up wifi code g h0, hr]
    simp

theorem jsonPayload_fixed_format_witness :
    scenarioReading.allFinite = true ∧
    (isFixedDecimal 2 (String_float scenarioReading.voltage 2) = true ∧
      isFixedDecimal 3 (String_float scenarioReading.current 3) = true ∧
      isFixedDecimal 2 (String_float scenarioReading.power 2) = true ∧
      isFixedDecimal 3 (String_float scenarioReading.energy 3) = true ∧
      isFixedDecimal 2 (String_float scenarioReading.frequency 2) = true ∧
      isFixedDecimal 3 (String_float scenarioReading.pf 3) = true) ∧
    (inputLinkUp.wifi 0 = true ∧
      Event.http (.POST (jsonPayload scenarioReading)) ∈
        sendDataToServer inputLinkUp.wifi 200 { boot with reading := scenarioReading }) :=
  ⟨by decide, (jsonPayload_fixed_format scenarioReading).2.1 (by decide),
   rfl, (jsonPayload_fixed_format scenarioReading).2.2.2.1 inputLinkUp.wifi 200
     { boot with reading := scenarioReading } rfl rfl⟩

end EnergyMonitor
